import Mathlib

/-!
Shallow embedding of `src/server.js` (an Express storefront/checkout server).

The server has three API handlers:
- `GET /api/health` — reports a status string and whether the Stripe key is set;
- `POST /api/create-checkout-session` — builds a Stripe checkout-session
  request from (product, size, price) and returns the session id obtained
  from the provider;
- `POST /api/webhook` — verifies a Stripe webhook signature and dispatches on
  the event type.

Environment configuration is modelled as an explicit `Config` record, the
external Stripe library as function parameters (`provider` for
`stripe.checkout.sessions.create`, `constructEvent` for
`stripe.webhooks.constructEvent`), and side effects (console logs, the
outbound provider call) as explicit fields of each handler's result.
-/

namespace Server

/-- Environment-sourced configuration (`process.env` reads in server.js). -/
structure Config where
  stripeSecretKey : Option String
  stripeWebhookSecret : Option String
  railwayPublicDomain : Option String
  envPort : Option String
  deriving Repr, DecidableEq

/-- `const PORT = process.env.PORT || 3000` (as the string used in URLs). -/
def Config.port (c : Config) : String := c.envPort.getD "3000"

/-- A JSON value, as far as the server's response bodies need. -/
inductive JVal where
  | str (s : String)
  | bool (b : Bool)
  deriving Repr, DecidableEq

/-- `GET /api/health` handler: HTTP status and JSON body (key/value pairs,
in emission order), from server.js lines 20-25. -/
def healthHandler (c : Config) : Nat × List (String × JVal) :=
  (200,
   [("status", .str "Server is running! 🔥"),
    ("stripe", .str (if c.stripeSecretKey.isSome then "configured" else "missing"))])

/-- The order request body of `POST /api/create-checkout-session`:
`const { product, size, price } = req.body`. -/
structure OrderRequest where
  product : String
  size : String
  price : Int
  deriving Repr, DecidableEq

/-- The `productNames` table (server.js lines 40-46). -/
def productNames : List (String × String) :=
  [("karma", "The Karma Tee"),
   ("buttercup", "The Buttercup"),
   ("zero-dark", "Zero Care - Dark"),
   ("zero-light", "Zero Care - Light"),
   ("boss", "The Boss Move")]

/-- `productNames[product]` as an optional lookup. -/
def lookupProduct (p : String) : Option String :=
  (productNames.find? (fun kv => kv.1 == p)).map (fun kv => kv.2)

/-- JS template-literal rendering of `productNames[product]`: a missing key
evaluates to `undefined`, which stringifies as "undefined". -/
def productDisplay (p : String) : String :=
  (lookupProduct p).getD "undefined"

/-- `const YOUR_DOMAIN = process.env.RAILWAY_PUBLIC_DOMAIN ?
https://... : http://localhost:PORT` (server.js lines 49-51). -/
def YOUR_DOMAIN (c : Config) : String :=
  match c.railwayPublicDomain with
  | some d => "https://" ++ d
  | none => "http://localhost:" ++ c.port

/-- The single line item of the session request (server.js lines 57-67). -/
structure LineItem where
  currency : String
  name : String
  description : String
  unit_amount : Int
  quantity : Nat
  deriving Repr, DecidableEq

/-- The argument object passed to `stripe.checkout.sessions.create`
(server.js lines 53-82). -/
structure SessionRequest where
  payment_method_types : List String
  mode : String
  line_items : List LineItem
  success_url : String
  cancel_url : String
  allowed_countries : List String
  metadata_product : String
  metadata_size : String
  metadata_order_type : String
  metadata_delivery_date : String
  deriving Repr, DecidableEq

/-- Builds the provider-facing session request exactly as server.js does. -/
def buildSessionRequest (c : Config) (req : OrderRequest) : SessionRequest :=
  { payment_method_types := ["card"]
    mode := "payment"
    line_items :=
      [{ currency := "usd"
         name := productDisplay req.product ++ " - Size " ++ req.size
         description := "✨ Pre-Order - Ships March 2026"
         unit_amount := req.price
         quantity := 1 }]
    success_url := YOUR_DOMAIN c ++ "/success.html?session_id=" ++ "\x7bCHECKOUT_SESSION_ID\x7d"
    cancel_url := YOUR_DOMAIN c ++ "/"
    allowed_countries := ["US", "CA", "GB", "AU", "NZ", "IE"]
    metadata_product := req.product
    metadata_size := req.size
    metadata_order_type := "pre-order"
    metadata_delivery_date := "March 2026" }

/-- The session object returned by the provider, as far as the handler
reads it (`session.id`). -/
structure StripeSession where
  id : String
  deriving Repr, DecidableEq

/-- Response body of the checkout handler: `{ id }` on success,
`{ error }` on failure. -/
inductive CheckoutBody where
  | id (s : String)
  | error (msg : String)
  deriving Repr, DecidableEq

/-- Error text of the missing-credential response (server.js line 35). -/
def stripeMissingMsg : String :=
  "Stripe not configured. Add STRIPE_SECRET_KEY to Railway environment variables."

/-- Observable outcome of one `POST /api/create-checkout-session` call:
HTTP status, JSON body, and the provider call that was issued (if any). -/
structure CheckoutResult where
  status : Nat
  body : CheckoutBody
  providerCall : Option SessionRequest
  deriving Repr, DecidableEq

/-- The `POST /api/create-checkout-session` handler (server.js lines 28-91).
`provider` stands for `stripe.checkout.sessions.create`; an `Except.error`
is a thrown Stripe error caught by the catch block of the handler. -/
def createCheckoutSession (c : Config)
    (provider : SessionRequest → Except String StripeSession)
    (req : OrderRequest) : CheckoutResult :=
  match c.stripeSecretKey with
  | none => { status := 500, body := .error stripeMissingMsg, providerCall := none }
  | some _ =>
    let sreq := buildSessionRequest c req
    match provider sreq with
    | .ok session =>
        { status := 200, body := .id session.id, providerCall := some sreq }
    | .error msg =>
        { status := 500, body := .error msg, providerCall := some sreq }

/-- A verified Stripe webhook event, as far as the dispatch switch reads it. -/
structure StripeEvent where
  type : String
  dataObjectId : String
  dataObjectAmountTotal : Int
  dataObjectCustomerDetails : String
  deriving Repr, DecidableEq

/-- One `console.log` line of the webhook handler. -/
inductive LogEntry where
  | secretNotConfigured
  | sigVerificationFailed (msg : String)
  | paymentSuccessful (id : String) (amount : Int) (customer : String)
  | paymentIntentSucceeded
  | unhandledEvent (ty : String)
  deriving Repr, DecidableEq

/-- Which branch of the event-type switch ran. -/
inductive SwitchBranch where
  | completed
  | paymentIntent
  | unhandled
  deriving Repr, DecidableEq

/-- HTTP response of the webhook handler: `res.sendStatus(n)` (status only,
no JSON body) or the JSON acknowledgment body (received true, status 200). -/
inductive WebhookResponse where
  | sendStatus (n : Nat)
  | jsonReceived
  deriving Repr, DecidableEq

/-- HTTP status code carried by a `WebhookResponse` (`res.json` defaults
to 200). -/
def WebhookResponse.status : WebhookResponse → Nat
  | .sendStatus n => n
  | .jsonReceived => 200

/-- Observable outcome of one `POST /api/webhook` call. -/
structure WebhookResult where
  response : WebhookResponse
  logs : List LogEntry
  dispatched : Option SwitchBranch
  deriving Repr, DecidableEq

/-- The `POST /api/webhook` handler (server.js lines 94-131). `constructEvent`
stands for `stripe.webhooks.constructEvent(body, sig, secret)`; an
`Except.error` is a thrown signature-verification error. -/
def webhookHandler (c : Config)
    (constructEvent : String → Option String → String → Except String StripeEvent)
    (body : String) (sig : Option String) : WebhookResult :=
  match c.stripeWebhookSecret with
  | none =>
      { response := .sendStatus 200, logs := [.secretNotConfigured], dispatched := none }
  | some secret =>
    match constructEvent body sig secret with
    | .error msg =>
        { response := .sendStatus 400
          logs := [.sigVerificationFailed msg]
          dispatched := none }
    | .ok event =>
      if event.type == "checkout.session.completed" then
        { response := .jsonReceived
          logs := [.paymentSuccessful event.dataObjectId event.dataObjectAmountTotal
                     event.dataObjectCustomerDetails]
          dispatched := some .completed }
      else if event.type == "payment_intent.succeeded" then
        { response := .jsonReceived
          logs := [.paymentIntentSucceeded]
          dispatched := some .paymentIntent }
      else
        { response := .jsonReceived
          logs := [.unhandledEvent event.type]
          dispatched := some .unhandled }

/-- A fully configured environment, for concrete evaluations. -/
def fullConfig : Config :=
  { stripeSecretKey := some "sk_test_123"
    stripeWebhookSecret := some "whsec_123"
    railwayPublicDomain := some "example.up.railway.app"
    envPort := none }

/-- An environment with nothing configured, for concrete evaluations. -/
def bareConfig : Config :=
  { stripeSecretKey := none
    stripeWebhookSecret := none
    railwayPublicDomain := none
    envPort := none }

/-- A stub provider that always succeeds with a fixed session id. -/
def stubProvider : SessionRequest → Except String StripeSession :=
  fun _ => .ok { id := "cs_test_a1b2c3" }

/-- A stub `constructEvent` that always rejects the signature. -/
def rejectAll : String → Option String → String → Except String StripeEvent :=
  fun _ _ _ => .error "No signatures found matching the expected signature for payload"

/-- A stub `constructEvent` that always verifies, yielding a fixed event. -/
def acceptAs (e : StripeEvent) : String → Option String → String → Except String StripeEvent :=
  fun _ _ _ => .ok e

/-- A sample event of a kind the switch does not recognize. -/
def sampleEvent : StripeEvent :=
  { type := "invoice.paid"
    dataObjectId := "evt_1"
    dataObjectAmountTotal := 0
    dataObjectCustomerDetails := "" }

/-- C1: with a configured webhook secret, whenever signature verification of
the body against that secret fails, the webhook handler responds 400 and no
branch of the event-type switch runs. -/
theorem webhook_reject_no_dispatch (c : Config) (secret : String)
    (constructEvent : String → Option String → String → Except String StripeEvent)
    (body : String) (sig : Option String) (msg : String)
    (hsec : c.stripeWebhookSecret = some secret)
    (hfail : constructEvent body sig secret = .error msg) :
    (webhookHandler c constructEvent body sig).response = .sendStatus 400 ∧
    (webhookHandler c constructEvent body sig).dispatched = none := by
  simp [webhookHandler, hsec, hfail]

/-- C1 witness: a concrete rejected delivery. -/
theorem webhook_reject_no_dispatch_witness :
    (webhookHandler fullConfig rejectAll "rawbody" (some "t=1,v1=deadbeef")).response =
      .sendStatus 400 ∧
    (webhookHandler fullConfig rejectAll "rawbody" (some "t=1,v1=deadbeef")).dispatched = none :=
  webhook_reject_no_dispatch fullConfig "whsec_123" rejectAll "rawbody"
    (some "t=1,v1=deadbeef")
    "No signatures found matching the expected signature for payload" rfl rfl

/-- C2: with no STRIPE_SECRET_KEY configured, the checkout handler responds
500 with the configuration-error message and issues no provider call. -/
theorem checkout_missing_credential (c : Config)
    (provider : SessionRequest → Except String StripeSession) (req : OrderRequest)
    (h : c.stripeSecretKey = none) :
    (createCheckoutSession c provider req).status = 500 ∧
    (createCheckoutSession c provider req).body = .error stripeMissingMsg ∧
    (createCheckoutSession c provider req).providerCall = none := by
  simp [createCheckoutSession, h]

/-- C2 witness: a concrete unconfigured environment. -/
theorem checkout_missing_credential_witness :
    (createCheckoutSession bareConfig stubProvider
      { product := "karma", size := "M", price := 2500 }).status = 500 ∧
    (createCheckoutSession bareConfig stubProvider
      { product := "karma", size := "M", price := 2500 }).body = .error stripeMissingMsg ∧
    (createCheckoutSession bareConfig stubProvider
      { product := "karma", size := "M", price := 2500 }).providerCall = none :=
  checkout_missing_credential bareConfig stubProvider
    { product := "karma", size := "M", price := 2500 } rfl

/-- C3: with no webhook secret configured, the webhook handler responds with
status 200 (a success acknowledgment), runs no switch branch, and its only
side effect is the single warning log line. -/
theorem webhook_unconfigured_degrade (c : Config)
    (constructEvent : String → Option String → String → Except String StripeEvent)
    (body : String) (sig : Option String)
    (h : c.stripeWebhookSecret = none) :
    (webhookHandler c constructEvent body sig).response = .sendStatus 200 ∧
    (webhookHandler c constructEvent body sig).dispatched = none ∧
    (webhookHandler c constructEvent body sig).logs = [.secretNotConfigured] := by
  simp [webhookHandler, h]

/-- C3 witness: a concrete delivery to an unconfigured server. -/
theorem webhook_unconfigured_degrade_witness :
    (webhookHandler bareConfig rejectAll "rawbody" none).response = .sendStatus 200 ∧
    (webhookHandler bareConfig rejectAll "rawbody" none).dispatched = none ∧
    (webhookHandler bareConfig rejectAll "rawbody" none).logs = [.secretNotConfigured] :=
  webhook_unconfigured_degrade bareConfig rejectAll "rawbody" none rfl

/-- C4: for the order (karma, M, 2500), whenever the provider call succeeds,
the handler returns 200 with the (non-empty) session id from the provider, and
the request sent to the provider has unit_amount 2500, currency usd,
quantity 1, and metadata product karma, size M. -/
theorem checkout_end_to_end (c : Config) (k : String)
    (provider : SessionRequest → Except String StripeSession) (session : StripeSession)
    (hkey : c.stripeSecretKey = some k)
    (hprov : provider (buildSessionRequest c { product := "karma", size := "M", price := 2500 }) =
      .ok session)
    (hid : session.id ≠ "") :
    (createCheckoutSession c provider { product := "karma", size := "M", price := 2500 }).status =
      200 ∧
    (createCheckoutSession c provider { product := "karma", size := "M", price := 2500 }).body =
      .id session.id ∧
    session.id ≠ "" ∧
    (createCheckoutSession c provider
        { product := "karma", size := "M", price := 2500 }).providerCall =
      some (buildSessionRequest c { product := "karma", size := "M", price := 2500 }) ∧
    (buildSessionRequest c
        { product := "karma", size := "M", price := 2500 }).line_items.map LineItem.unit_amount =
      [2500] ∧
    (buildSessionRequest c
        { product := "karma", size := "M", price := 2500 }).line_items.map LineItem.currency =
      ["usd"] ∧
    (buildSessionRequest c
        { product := "karma", size := "M", price := 2500 }).line_items.map LineItem.quantity =
      [1] ∧
    (buildSessionRequest c { product := "karma", size := "M", price := 2500 }).metadata_product =
      "karma" ∧
    (buildSessionRequest c { product := "karma", size := "M", price := 2500 }).metadata_size =
      "M" := by
  refine ⟨?_, ?_, hid, ?_, rfl, rfl, rfl, rfl, rfl⟩ <;>
    simp [createCheckoutSession, hkey, hprov]

/-- C4 witness: the stub provider succeeding with a fixed non-empty id. -/
theorem checkout_end_to_end_witness :
    (createCheckoutSession fullConfig stubProvider
        { product := "karma", size := "M", price := 2500 }).status = 200 ∧
    (createCheckoutSession fullConfig stubProvider
        { product := "karma", size := "M", price := 2500 }).body = .id "cs_test_a1b2c3" ∧
    ("cs_test_a1b2c3" : String) ≠ "" ∧
    (createCheckoutSession fullConfig stubProvider
        { product := "karma", size := "M", price := 2500 }).providerCall =
      some (buildSessionRequest fullConfig { product := "karma", size := "M", price := 2500 }) ∧
    (buildSessionRequest fullConfig
        { product := "karma", size := "M", price := 2500 }).line_items.map LineItem.unit_amount =
      [2500] ∧
    (buildSessionRequest fullConfig
        { product := "karma", size := "M", price := 2500 }).line_items.map LineItem.currency =
      ["usd"] ∧
    (buildSessionRequest fullConfig
        { product := "karma", size := "M", price := 2500 }).line_items.map LineItem.quantity =
      [1] ∧
    (buildSessionRequest fullConfig
        { product := "karma", size := "M", price := 2500 }).metadata_product = "karma" ∧
    (buildSessionRequest fullConfig
        { product := "karma", size := "M", price := 2500 }).metadata_size = "M" :=
  checkout_end_to_end fullConfig "sk_test_123" stubProvider { id := "cs_test_a1b2c3" }
    rfl rfl (by decide)

/-- C5: for every product in the catalog, every size and every positive
price, the line-item display name is the catalog display name, then the text
" - Size ", then the size. -/
theorem catalog_display_name (c : Config) (p name size : String) (price : Int)
    (hp : lookupProduct p = some name) (hprice : 0 < price) :
    (buildSessionRequest c { product := p, size := size, price := price }).line_items.map
      LineItem.name = [name ++ " - Size " ++ size] := by
  simp [buildSessionRequest, productDisplay, hp]

/-- C5 witness: the karma catalog entry at size M, price 2500. -/
theorem catalog_display_name_witness :
    (buildSessionRequest fullConfig
        { product := "karma", size := "M", price := 2500 }).line_items.map LineItem.name =
      ["The Karma Tee - Size M"] :=
  catalog_display_name fullConfig "karma" "The Karma Tee" "M" 2500 rfl (by decide)

/-- C6: whenever signature verification succeeds, the webhook handler
acknowledges with the success JSON body (status 200) for every event kind,
recognized or not. -/
theorem webhook_verified_always_acks (c : Config) (secret : String)
    (constructEvent : String → Option String → String → Except String StripeEvent)
    (body : String) (sig : Option String) (event : StripeEvent)
    (hsec : c.stripeWebhookSecret = some secret)
    (hok : constructEvent body sig secret = .ok event) :
    (webhookHandler c constructEvent body sig).response = .jsonReceived ∧
    (webhookHandler c constructEvent body sig).response.status = 200 := by
  simp only [webhookHandler, hsec, hok]
  split_ifs <;> exact ⟨rfl, rfl⟩

/-- C6 witness: a verified event of an unrecognized kind. -/
theorem webhook_verified_always_acks_witness :
    (webhookHandler fullConfig (acceptAs sampleEvent) "rawbody" (some "sig")).response =
      .jsonReceived ∧
    (webhookHandler fullConfig (acceptAs sampleEvent) "rawbody" (some "sig")).response.status =
      200 :=
  webhook_verified_always_acks fullConfig "whsec_123" (acceptAs sampleEvent) "rawbody"
    (some "sig") sampleEvent rfl rfl

/-- C7: with the credential configured, every order request (any product, any
integer price) reaches the provider with the caller price forwarded verbatim
as unit_amount; a product absent from the catalog does not fail locally but
yields the malformed display name with the text undefined. -/
theorem checkout_no_local_validation (c : Config) (k : String)
    (provider : SessionRequest → Except String StripeSession) (req : OrderRequest)
    (hkey : c.stripeSecretKey = some k) :
    (createCheckoutSession c provider req).providerCall = some (buildSessionRequest c req) ∧
    (buildSessionRequest c req).line_items.map LineItem.unit_amount = [req.price] ∧
    (lookupProduct req.product = none →
      (buildSessionRequest c req).line_items.map LineItem.name =
        ["undefined - Size " ++ req.size]) := by
  refine ⟨?_, rfl, fun habs => ?_⟩
  · simp only [createCheckoutSession, hkey]
    cases provider (buildSessionRequest c req) <;> rfl
  · simp [buildSessionRequest, productDisplay, habs]

/-- C7 witness: an order for a product absent from the catalog at a negative
price still reaches the provider, price forwarded verbatim, display name
malformed. -/
theorem checkout_no_local_validation_witness :
    (createCheckoutSession fullConfig stubProvider
        { product := "hoodie", size := "XL", price := -1 }).providerCall =
      some (buildSessionRequest fullConfig { product := "hoodie", size := "XL", price := -1 }) ∧
    (buildSessionRequest fullConfig
        { product := "hoodie", size := "XL", price := -1 }).line_items.map
      LineItem.unit_amount = [-1] ∧
    (buildSessionRequest fullConfig
        { product := "hoodie", size := "XL", price := -1 }).line_items.map LineItem.name =
      ["undefined - Size XL"] :=
  ⟨(checkout_no_local_validation fullConfig "sk_test_123" stubProvider
      { product := "hoodie", size := "XL", price := -1 } rfl).1,
   (checkout_no_local_validation fullConfig "sk_test_123" stubProvider
      { product := "hoodie", size := "XL", price := -1 } rfl).2.1,
   (checkout_no_local_validation fullConfig "sk_test_123" stubProvider
      { product := "hoodie", size := "XL", price := -1 } rfl).2.2 rfl⟩

/-- C8 counterexample: the health response body carries no boolean field
named stripeConfigured at all (here at the fully configured environment), so
the claimed body shape is false. -/
theorem health_shape_counterexample :
    ¬ ∃ b : Bool,
      ((healthHandler fullConfig).2.lookup "stripeConfigured") = some (JVal.bool b) := by
  intro h
  obtain ⟨b, hb⟩ := h
  have hnone : ((healthHandler fullConfig).2.lookup "stripeConfigured") = none := rfl
  rw [hnone] at hb
  exact Option.noConfusion hb

/-- C8 amended: every health request gets status 200 and a JSON body with a
string field status and a string field named stripe, whose value is
configured or missing according to whether the credential is set. -/
theorem health_contract (c : Config) :
    (healthHandler c).1 = 200 ∧
    (healthHandler c).2.lookup "status" = some (.str "Server is running! 🔥") ∧
    (healthHandler c).2.lookup "stripe" =
      some (.str (if c.stripeSecretKey.isSome then "configured" else "missing")) :=
  ⟨rfl, rfl, rfl⟩

/-- C9: the success and cancel redirect URLs are the configured base URL (or
the localhost fallback) plus fixed relative paths, and the success URL
contains the CHECKOUT_SESSION_ID placeholder token. -/
theorem redirect_urls (c : Config) (req : OrderRequest) :
    (buildSessionRequest c req).success_url =
      YOUR_DOMAIN c ++ "/success.html?session_id=" ++ "\x7bCHECKOUT_SESSION_ID\x7d" ∧
    (buildSessionRequest c req).cancel_url = YOUR_DOMAIN c ++ "/" ∧
    YOUR_DOMAIN c = (match c.railwayPublicDomain with
      | some d => "https://" ++ d
      | none => "http://localhost:" ++ c.port) ∧
    ∃ a b : String,
      (buildSessionRequest c req).success_url = a ++ "\x7bCHECKOUT_SESSION_ID\x7d" ++ b := by
  refine ⟨rfl, rfl, rfl, YOUR_DOMAIN c ++ "/success.html?session_id=", "", ?_⟩
  simp [buildSessionRequest]

/-- C10: the two success acknowledgments of the webhook handler are
observably different: with no secret configured the response is a bare
status 200 with no JSON body, while every verified event is acknowledged
with the JSON body (received true), also at status 200. -/
theorem webhook_acks_distinguishable (c₁ c₂ : Config)
    (ce₁ ce₂ : String → Option String → String → Except String StripeEvent)
    (b₁ b₂ : String) (s₁ s₂ : Option String) (secret : String) (event : StripeEvent)
    (h₁ : c₁.stripeWebhookSecret = none)
    (h₂ : c₂.stripeWebhookSecret = some secret)
    (hok : ce₂ b₂ s₂ secret = .ok event) :
    (webhookHandler c₁ ce₁ b₁ s₁).response = .sendStatus 200 ∧
    (webhookHandler c₂ ce₂ b₂ s₂).response = .jsonReceived ∧
    (webhookHandler c₁ ce₁ b₁ s₁).response ≠ (webhookHandler c₂ ce₂ b₂ s₂).response ∧
    (webhookHandler c₁ ce₁ b₁ s₁).response.status = 200 ∧
    (webhookHandler c₂ ce₂ b₂ s₂).response.status = 200 := by
  have hr₁ : (webhookHandler c₁ ce₁ b₁ s₁).response = .sendStatus 200 := by
    simp [webhookHandler, h₁]
  have hr₂ : (webhookHandler c₂ ce₂ b₂ s₂).response = .jsonReceived := by
    simp only [webhookHandler, h₂, hok]
    split_ifs <;> rfl
  refine ⟨hr₁, hr₂, ?_, ?_, ?_⟩
  · rw [hr₁, hr₂]
    intro h
    exact WebhookResponse.noConfusion h
  · rw [hr₁]; rfl
  · rw [hr₂]; rfl

/-- C10 witness: an unconfigured server and a configured server with a
verified event give distinguishable 200 acknowledgments. -/
theorem webhook_acks_distinguishable_witness :
    (webhookHandler bareConfig rejectAll "rawbody" none).response = .sendStatus 200 ∧
    (webhookHandler fullConfig (acceptAs sampleEvent) "rawbody" (some "sig")).response =
      .jsonReceived ∧
    (webhookHandler bareConfig rejectAll "rawbody" none).response ≠
      (webhookHandler fullConfig (acceptAs sampleEvent) "rawbody" (some "sig")).response ∧
    (webhookHandler bareConfig rejectAll "rawbody" none).response.status = 200 ∧
    (webhookHandler fullConfig (acceptAs sampleEvent) "rawbody"
      (some "sig")).response.status = 200 :=
  webhook_acks_distinguishable bareConfig fullConfig rejectAll (acceptAs sampleEvent)
    "rawbody" "rawbody" none (some "sig") "whsec_123" sampleEvent rfl rfl rfl

end Server
